import Mathlib

/-!
Shallow embedding of the Key Event Recorder server
(src/key_event_recorder/server.py) and proofs about its
session lifecycle and sample-recording logic.

The filesystem is modelled explicitly: the sessions directory is a list of
marker-file names, and each of the two CSV buckets (collected_data,
failed_attempts) is a list of (file name, file content) pairs.  Write
failures that the Python code catches as IOError are modelled by boolean
fault flags passed to the operations.
-/

namespace KeyEventRecorder

/-! ### String helpers (Python str semantics, executable) -/

/-- Python str.startswith: listStarts p s decides whether p occurs
as an initial segment of s. -/
def listStarts : List Char → List Char → Bool
  | [], _ => true
  | _ :: _, [] => false
  | a :: as, b :: bs => a == b && listStarts as bs

/-- Python str.startswith on strings. -/
def strStarts (p s : String) : Bool := listStarts p.data s.data

/-- Python str.endswith on strings (used to model the glob pattern tail). -/
def strEnds (p s : String) : Bool := listStarts p.data.reverse s.data.reverse

/-- Python str.lower (ASCII range, as exercised by the server). -/
def strLower (s : String) : String := String.mk (s.data.map Char.toLower)

/-- Python considers these ASCII characters whitespace for str.strip. -/
def isPyWhite (c : Char) : Bool :=
  c == ' ' || c == '\t' || c == '\n' || c == '\x0d' || c == '\x0b' || c == '\x0c'

/-- Python str.strip: drop leading and trailing whitespace. -/
def pyStrip (s : String) : String :=
  String.mk (((s.data.dropWhile isPyWhite).reverse.dropWhile isPyWhite).reverse)

/-- Python str.join with a separator (",".join(row)). -/
def joinSep (sep : String) : List String → String
  | [] => ""
  | [x] => x
  | x :: y :: xs => x ++ sep ++ joinSep sep (y :: xs)

/-- Python "".join: concatenate a list of strings. -/
def concatAll : List String → String
  | [] => ""
  | x :: xs => x ++ concatAll xs

/-- Python str(n) for a natural number: decimal rendering.
Structurally recursive on a fuel argument so it evaluates in the kernel. -/
def natToDecAux : Nat → Nat → List Char
  | 0, _ => []
  | fuel + 1, n =>
    if n = 0 then [] else natToDecAux fuel (n / 10) ++ [Nat.digitChar (n % 10)]

/-- Python str(n) for n : Nat. -/
def natToDec (n : Nat) : String :=
  if n = 0 then "0" else String.mk (natToDecAux n n)

/-- Python str(i) for an integer (timestamps are validated > 0 but the model
keeps full generality). -/
def intToDec : Int → String
  | Int.ofNat n => natToDec n
  | Int.negSucc n => "-" ++ natToDec (n + 1)

/-! ### Constants (server.py lines 30-36) -/

def TARGET_STRING : String := "a full moon illuminates the night sky"

def CONGRATULATIONS_MESSAGE : String :=
  "Congratulations! You have successfully completed all samples for this session."

def MAX_SAMPLES : Nat := 5

def SESSION_ID_LENGTH : Nat := 6

def SESSION_ID_CHARS : List Char := "abcdefghijklmnopqrstuvwxyz0123456789".toList

/-! ### Data model (server.py lines 59-67) -/

/-- KeyEvent: key (non-empty), keyDownTimestamp > 0, keyUpTimestamp > 0.
The pydantic bounds are stated separately as `validKeyEvent`. -/
structure KeyEvent where
  key : String
  keyDownTimestamp : Int
  keyUpTimestamp : Int
deriving Repr, DecidableEq

/-- The pydantic field constraints on KeyEvent. -/
def validKeyEvent (e : KeyEvent) : Prop :=
  1 ≤ e.key.length ∧ 0 < e.keyDownTimestamp ∧ 0 < e.keyUpTimestamp

/-- Server-side filesystem state: marker-file names in the sessions
directory, and (name, content) pairs in the two CSV buckets. -/
structure ServerState where
  sessions : List String
  dataFiles : List (String × String)
  failedFiles : List (String × String)
deriving Repr, DecidableEq

/-! ### Filesystem primitives -/

/-- Whether a file name matches the glob pattern "{sid}_*.csv"
(pathlib.Path.glob: * matches any, possibly empty, run of characters). -/
def matchesGlob (sid name : String) : Bool :=
  strStarts (sid ++ "_") name && strEnds ".csv" name &&
    decide (sid.length + 5 ≤ name.length)

/-- Number of files in a bucket matching "{sid}_*.csv" — the code's
len(list(dir.glob(f"{sid}_*.csv"))). -/
def globCount (files : List (String × String)) (sid : String) : Nat :=
  files.countP (fun f => matchesGlob sid f.1)

/-- Writing a file: open(mode="w") truncates an existing file of the same
name, otherwise creates a new directory entry. -/
def writeFile (files : List (String × String)) (name content : String) :
    List (String × String) :=
  if files.any (fun f => f.1 == name) then
    files.map (fun f => if f.1 == name then (name, content) else f)
  else files ++ [(name, content)]

/-! ### CSV serialisation (write_csv_data, server.py lines 92-98) -/

def CSV_HEADER : String := "key,keyDownTimestamp,keyUpTimestamp\n"

/-- One CSV line: ",".join(map(str, row)) + "\n" (fields already strings). -/
def csvRowOf (row : List String) : String := joinSep "," row ++ "\n"

/-- Full content written by write_csv_data: header then one line per row. -/
def writeCsvContent (rows : List (List String)) : String :=
  CSV_HEADER ++ concatAll (rows.map csvRowOf)

/-- new_rows (server.py line 149): one [key, str(down), str(up)] per event. -/
def newRowsOf (events : List KeyEvent) : List (List String) :=
  events.map (fun e => [e.key, intToDec e.keyDownTimestamp, intToDec e.keyUpTimestamp])

/-! ### Typed-string reconstruction (server.py lines 150-153) -/

/-- key_map.get(event.key.lower(), event.key): "space" ↦ " ",
"enter" ↦ "", anything else ↦ the original key text. -/
def keyToText (k : String) : String :=
  if strLower k = "space" then " "
  else if strLower k = "enter" then ""
  else k

/-- "".join(key_map.get(e.key.lower(), e.key) for e in events).strip() -/
def typedStringOf (events : List KeyEvent) : String :=
  pyStrip (concatAll (events.map (fun e => keyToText e.key)))

/-! ### Outcomes and fault injection -/

/-- Result of a /record request: RecordSuccessResponse,
SessionCompleteResponse, or an APIException rendered as
(status_code, error_code, detail). -/
inductive RecordOutcome where
  | recorded (eventsRecordedForSession : Nat)
  | sessionCompleted (message : String)
  | apiError (statusCode : Nat) (errorCode : String) (detail : String)
deriving Repr, DecidableEq

/-- Injected storage faults: the three places record_data_sample catches
an exception (session-existence check, failure-log write, data write). -/
structure Faults where
  existsCheckFails : Bool := false
  failedWriteFails : Bool := false
  dataWriteFails : Bool := false
deriving Repr, DecidableEq

def noFaults : Faults := {}

/-- File name "{sid}_{n}.csv" used in both buckets. -/
def sampleFileName (sid : String) (n : Nat) : String :=
  sid ++ "_" ++ natToDec n ++ ".csv"

/-! ### record_data_sample (server.py lines 128-193) -/

/-- The /record handler.  Mirrors the Python control flow step by step:
existence check (faultable), 404 on missing marker, typed-string
validation with failure logging (faultable), quota check, data write
(faultable), completion check. -/
def record_data_sample (faults : Faults) (st : ServerState) (session_id : String)
    (key_events : List KeyEvent) : RecordOutcome × ServerState :=
  if faults.existsCheckFails then
    (.apiError 500 "session_check_failed" "Error checking session existence.", st)
  else if ¬ session_id ∈ st.sessions then
    (.apiError 404 "session_not_found" "Session ID not found.", st)
  else
    let new_rows := newRowsOf key_events
    let typed_string := typedStringOf key_events
    if typed_string ≠ TARGET_STRING then
      let attempt_number := globCount st.failedFiles session_id + 1
      let failed_file := sampleFileName session_id attempt_number
      if faults.failedWriteFails then
        (.apiError 500 "failed_attempt_log_failed"
          "Validation failed, and could not log the attempt.", st)
      else
        let newFailed := writeFile st.failedFiles failed_file (writeCsvContent new_rows)
        (.apiError 400 "validation_failed"
          ("Typed string did not match target. Attempt " ++
            natToDec attempt_number ++ " logged."),
         { st with failedFiles := newFailed })
    else
      let existing_samples := globCount st.dataFiles session_id
      if MAX_SAMPLES ≤ existing_samples then
        (.apiError 403 "session_complete"
          "This session is complete. No more samples can be recorded.", st)
      else
        let sample_number := existing_samples + 1
        if faults.dataWriteFails then
          (.apiError 500 "file_operation_failed"
            "File operation failed: simulated IOError", st)
        else
          let newData := writeFile st.dataFiles
            (sampleFileName session_id sample_number) (writeCsvContent new_rows)
          let st2 := { st with dataFiles := newData }
          if sample_number = MAX_SAMPLES then
            (.sessionCompleted CONGRATULATIONS_MESSAGE, st2)
          else
            (.recorded sample_number, st2)

/-- A sequence of /record calls against the same session, threading the
server state; returns the outcome of each call and the final state. -/
def record_iter (faults : Faults) (session_id : String) :
    ServerState → List (List KeyEvent) → List RecordOutcome × ServerState
  | st, [] => ([], st)
  | st, evs :: rest =>
    let r := record_data_sample faults st session_id evs
    let r2 := record_iter faults session_id r.2 rest
    (r.1 :: r2.1, r2.2)

/-! ### Session allocation (server.py lines 84-89 and 102-115) -/

/-- random.choices(SESSION_ID_CHARS, k=SESSION_ID_LENGTH): a candidate id
built from a list of random indices into the alphabet. -/
def mkCandidate (picks : List Nat) : String :=
  String.mk (picks.map (fun i => SESSION_ID_CHARS.getD (i % SESSION_ID_CHARS.length) 'a'))

/-- A well-formed session id: fixed length, drawn from {a-z, 0-9}. -/
def isValidSessionId (s : String) : Prop :=
  s.length = SESSION_ID_LENGTH ∧ ∀ c ∈ s.toList, c ∈ SESSION_ID_CHARS

/-- The candidate is free: no existing marker-file name starts with it
(the loop guard of generate_unique_session_id, negated). -/
def sessionIdAvailable (sessions : List String) (sid : String) : Bool :=
  ! sessions.any (fun f => strStarts sid f)

/-- generate_unique_session_id: try random candidates (supplied here as an
explicit stream) until one is not a prefix of any existing marker name.
The Python while-True loop is modelled by running out of candidates. -/
def generate_unique_session_id (sessions : List String) :
    List String → Option String
  | [] => none
  | c :: rest =>
    if sessions.any (fun f => strStarts c f) then
      generate_unique_session_id sessions rest
    else some c

/-- Result of GET /session. -/
inductive SessionOutcome where
  | ok (session_id : String)
  | apiError (statusCode : Nat) (errorCode : String) (detail : String)
deriving Repr, DecidableEq

/-- get_session_id: allocate a unique id, then write the empty marker file;
an IOError on the marker write (modelled by markerWriteFails) yields the
session_creation_failed server fault and no session id. -/
def get_session_id (markerWriteFails : Bool) (candidates : List String)
    (st : ServerState) : Option (SessionOutcome × ServerState) :=
  match generate_unique_session_id st.sessions candidates with
  | none => none
  | some session_id =>
    if markerWriteFails then
      some (.apiError 500 "session_creation_failed" "Could not create session file.", st)
    else
      some (.ok session_id, { st with sessions := st.sessions ++ [session_id] })

/-! ### Derived definitions used only to state properties -/

/-- Expected outcome of the (k+1)-th /record call on a session that already
holds k success files, when the submitted events type the target phrase. -/
def quotaOutcome (k : Nat) : RecordOutcome :=
  if MAX_SAMPLES ≤ k then
    .apiError 403 "session_complete"
      "This session is complete. No more samples can be recorded."
  else if k + 1 = MAX_SAMPLES then .sessionCompleted CONGRATULATIONS_MESSAGE
  else .recorded (k + 1)

/-- Spec-side reconstruction map, written from the spec's words: a literal
"space" (case-insensitive) maps to a single space character, a literal
"enter" maps to the empty string, any other key value is used verbatim. -/
def specCharOf (k : String) : String :=
  if strLower k = "space" then " "
  else if strLower k = "enter" then ""
  else k

/-- Spec-side typed string: concatenate in event order over the key values
alone, then strip leading and trailing whitespace. -/
def specTypedOfKeys (keys : List String) : String :=
  pyStrip (concatAll (keys.map specCharOf))

/-! ### Lemmas about the string helpers -/

theorem string_data_inj {s t : String} (h : s.data = t.data) : s = t := by
  cases s
  cases t
  exact congrArg String.mk h

theorem listStarts_iff (p s : List Char) : listStarts p s = true ↔ ∃ t, s = p ++ t := by
  induction p generalizing s with
  | nil => simp [listStarts]
  | cons a as ih =>
    cases s with
    | nil => simp [listStarts]
    | cons b bs =>
      simp only [listStarts, Bool.and_eq_true, beq_iff_eq, ih, List.cons_append]
      constructor
      · rintro ⟨rfl, t, rfl⟩
        exact ⟨t, rfl⟩
      · rintro ⟨t, ht⟩
        injection ht with h1 h2
        subst h1
        subst h2
        exact ⟨rfl, t, rfl⟩

theorem strStarts_iff (p s : String) :
    strStarts p s = true ↔ ∃ l, s.data = p.data ++ l := by
  unfold strStarts
  exact listStarts_iff p.data s.data

theorem strEnds_iff (p s : String) :
    strEnds p s = true ↔ ∃ l, s.data = l ++ p.data := by
  unfold strEnds
  rw [listStarts_iff]
  constructor
  · rintro ⟨t, ht⟩
    refine ⟨t.reverse, ?_⟩
    have h2 := congrArg List.reverse ht
    simpa using h2
  · rintro ⟨l, hl⟩
    exact ⟨l.reverse, by simp [hl]⟩

/-! ### Lemmas about glob matching and the file buckets -/

theorem matchesGlob_sampleFileName (sid : String) (n : Nat) :
    matchesGlob sid (sampleFileName sid n) = true := by
  unfold matchesGlob sampleFileName
  have h1 : strStarts (sid ++ "_") (sid ++ "_" ++ natToDec n ++ ".csv") = true := by
    rw [strStarts_iff]
    exact ⟨(natToDec n).data ++ ".csv".data, by
      simp [String.data_append, List.append_assoc]⟩
  have h2 : strEnds ".csv" (sid ++ "_" ++ natToDec n ++ ".csv") = true := by
    rw [strEnds_iff]
    exact ⟨sid.data ++ "_".data ++ (natToDec n).data, by
      simp [String.data_append, List.append_assoc]⟩
  rw [h1, h2]
  simp only [Bool.true_and, decide_eq_true_eq, String.length_append]
  have e1 : ("_" : String).length = 1 := rfl
  have e2 : (".csv" : String).length = 4 := rfl
  omega

theorem sampleFileName_lists (sid : String) (n : Nat) :
    (sampleFileName sid n).data =
      (sid.data ++ "_".data ++ (natToDec n).data) ++ ".csv".data := by
  simp [sampleFileName, String.data_append]

theorem natToDec_inj_le :
    ∀ m, m ≤ 6 → ∀ n, n ≤ 6 → natToDec m = natToDec n → m = n := by decide

theorem sampleFileName_inj_le {sid : String} {m n : Nat} (hm : m ≤ 6) (hn : n ≤ 6)
    (h : sampleFileName sid m = sampleFileName sid n) : m = n := by
  apply natToDec_inj_le m hm n hn
  have hd := congrArg String.data h
  rw [sampleFileName_lists, sampleFileName_lists] at hd
  have hd2 := List.append_cancel_right hd
  rw [List.append_assoc, List.append_assoc] at hd2
  have hd3 := List.append_cancel_left hd2
  exact string_data_inj (List.append_cancel_left hd3)

theorem globCount_append (files : List (String × String)) (sid : String)
    (x : String × String) :
    globCount (files ++ [x]) sid =
      globCount files sid + (if matchesGlob sid x.1 then 1 else 0) := by
  simp [globCount, List.countP_append, List.countP_cons]

theorem globCount_zero_iff (files : List (String × String)) (sid : String) :
    globCount files sid = 0 ↔ ∀ f ∈ files, matchesGlob sid f.1 = false := by
  simp [globCount, List.countP_eq_zero]

theorem fresh_of_globCount_zero {files : List (String × String)} {sid : String}
    (h : globCount files sid = 0) (n : Nat) :
    ∀ f ∈ files, f.1 ≠ sampleFileName sid n := by
  intro f hf heq
  have h2 := (globCount_zero_iff files sid).mp h f hf
  rw [heq, matchesGlob_sampleFileName] at h2
  simp at h2

theorem writeFile_of_fresh {files : List (String × String)} {name : String}
    (h : ∀ f ∈ files, f.1 ≠ name) (content : String) :
    writeFile files name content = files ++ [(name, content)] := by
  unfold writeFile
  have hany : files.any (fun f => f.1 == name) = false := by
    rw [List.any_eq_false]
    intro f hf
    simpa using h f hf
  simp [hany]

theorem strStarts_underscore_ne {S T : String} (hlen : S.length = T.length)
    (hne : T ≠ S) (rest : String) :
    strStarts (T ++ "_") ((S ++ "_") ++ rest) = false := by
  by_contra hb
  rw [Bool.not_eq_false, strStarts_iff] at hb
  obtain ⟨l, hl⟩ := hb
  rw [String.data_append, String.data_append, String.data_append] at hl
  have hlen2 : (S.data ++ ("_" : String).data).length =
      (T.data ++ ("_" : String).data).length := by
    have hdl : S.data.length = T.data.length := hlen
    simp [hdl]
  have h1 := (List.append_inj hl hlen2).1
  have hST : S.data = T.data := List.append_cancel_right h1
  exact hne (string_data_inj hST).symm

theorem sampleFileName_assoc (sid : String) (n : Nat) :
    sampleFileName sid n = (sid ++ "_") ++ (natToDec n ++ ".csv") := by
  unfold sampleFileName
  rw [String.append_assoc]

theorem matchesGlob_ne_sampleFileName {S T : String} (hlen : S.length = T.length)
    (hne : T ≠ S) (n : Nat) : matchesGlob T (sampleFileName S n) = false := by
  unfold matchesGlob
  have h : strStarts (T ++ "_") (sampleFileName S n) = false := by
    rw [sampleFileName_assoc]
    exact strStarts_underscore_ne hlen hne _
  simp [h]

theorem globCount_writeFile_not_match {files : List (String × String)}
    {sid name : String} (h : matchesGlob sid name = false) (content : String) :
    globCount (writeFile files name content) sid = globCount files sid := by
  unfold writeFile
  by_cases hany : files.any (fun f => f.1 == name) = true
  · rw [if_pos hany]
    unfold globCount
    rw [List.countP_map]
    apply List.countP_congr
    intro f _
    by_cases h1 : f.1 = name
    · simp [Function.comp, h1, h]
    · simp [Function.comp, h1]
  · rw [if_neg hany, globCount_append]
    by_cases h2 : matchesGlob sid name = true
    · rw [h] at h2
      simp at h2
    · simp [h]

theorem writeFile_mem {files : List (String × String)} {name content : String} :
    ∀ f ∈ writeFile files name content, f ∈ files ∨ f = (name, content) := by
  unfold writeFile
  by_cases hany : files.any (fun f => f.1 == name) = true
  · rw [if_pos hany]
    intro f hf
    rw [List.mem_map] at hf
    obtain ⟨g, hg, hfg⟩ := hf
    by_cases h1 : g.1 = name
    · right
      rw [← hfg]
      simp [h1]
    · left
      rw [← hfg]
      simpa [h1] using hg
  · rw [if_neg hany]
    intro f hf
    rw [List.mem_append] at hf
    rcases hf with hf | hf
    · exact Or.inl hf
    · right
      simpa using hf

/-! ### Step lemmas for record_data_sample -/

theorem noFaults_exists : noFaults.existsCheckFails = false := rfl

theorem noFaults_failed : noFaults.failedWriteFails = false := rfl

theorem noFaults_data : noFaults.dataWriteFails = false := rfl

/-- A faulty existence check short-circuits everything. -/
theorem record_check_fault {faults : Faults} (hflag : faults.existsCheckFails = true)
    (st : ServerState) (sid : String) (evs : List KeyEvent) :
    record_data_sample faults st sid evs =
      (.apiError 500 "session_check_failed" "Error checking session existence.", st) := by
  unfold record_data_sample
  rw [hflag]
  simp

/-- A missing marker file yields 404 regardless of the submitted events. -/
theorem record_not_found {faults : Faults} (hflag : faults.existsCheckFails = false)
    {st : ServerState} {sid : String} (hmem : sid ∉ st.sessions)
    (evs : List KeyEvent) :
    record_data_sample faults st sid evs =
      (.apiError 404 "session_not_found" "Session ID not found.", st) := by
  unfold record_data_sample
  rw [hflag]
  simp [hmem]

/-- Content mismatch: the attempt is logged in the failure bucket and the
call fails with validation_failed naming the 1-based attempt number. -/
theorem record_validation_fail {st : ServerState} {sid : String} {evs : List KeyEvent}
    (hmem : sid ∈ st.sessions) (htyped : typedStringOf evs ≠ TARGET_STRING)
    (hfresh : ∀ f ∈ st.failedFiles,
      f.1 ≠ sampleFileName sid (globCount st.failedFiles sid + 1)) :
    record_data_sample noFaults st sid evs =
      (.apiError 400 "validation_failed"
        ("Typed string did not match target. Attempt " ++
          natToDec (globCount st.failedFiles sid + 1) ++ " logged."),
       { st with failedFiles := st.failedFiles ++
           [(sampleFileName sid (globCount st.failedFiles sid + 1),
             writeCsvContent (newRowsOf evs))] }) := by
  unfold record_data_sample
  rw [noFaults_exists]
  rw [if_neg (by simp)]
  rw [if_neg (by simp [hmem])]
  rw [if_pos htyped]
  rw [noFaults_failed]
  rw [if_neg (by simp)]
  rw [writeFile_of_fresh hfresh]

/-- Quota reached: 403 session_complete and no state change. -/
theorem record_quota_full {st : ServerState} {sid : String} {evs : List KeyEvent}
    (hmem : sid ∈ st.sessions) (htyped : typedStringOf evs = TARGET_STRING)
    (hfull : MAX_SAMPLES ≤ globCount st.dataFiles sid) :
    record_data_sample noFaults st sid evs =
      (.apiError 403 "session_complete"
        "This session is complete. No more samples can be recorded.", st) := by
  unfold record_data_sample
  rw [noFaults_exists]
  simp only [Bool.false_eq_true, if_false]
  rw [if_neg (by simp [hmem])]
  rw [if_neg (by simp [htyped])]
  rw [if_pos hfull]

/-- Room in the quota: the sample is written to the success bucket with the
next 1-based index; the MAX_SAMPLES-th write completes the session. -/
theorem record_success {st : ServerState} {sid : String} {evs : List KeyEvent}
    (hmem : sid ∈ st.sessions) (htyped : typedStringOf evs = TARGET_STRING)
    (hroom : globCount st.dataFiles sid < MAX_SAMPLES)
    (hfresh : ∀ f ∈ st.dataFiles,
      f.1 ≠ sampleFileName sid (globCount st.dataFiles sid + 1)) :
    record_data_sample noFaults st sid evs =
      ((if globCount st.dataFiles sid + 1 = MAX_SAMPLES
          then RecordOutcome.sessionCompleted CONGRATULATIONS_MESSAGE
          else RecordOutcome.recorded (globCount st.dataFiles sid + 1)),
       { st with dataFiles := st.dataFiles ++
           [(sampleFileName sid (globCount st.dataFiles sid + 1),
             writeCsvContent (newRowsOf evs))] }) := by
  unfold record_data_sample
  rw [noFaults_exists]
  simp only [Bool.false_eq_true, if_false]
  rw [if_neg (by simp [hmem])]
  rw [if_neg (by simp [htyped])]
  rw [if_neg (by omega)]
  rw [noFaults_data]
  rw [if_neg (by simp)]
  rw [writeFile_of_fresh hfresh]
  by_cases h5 : globCount st.dataFiles sid + 1 = MAX_SAMPLES <;> simp [h5]

/-! ### The per-session success/completion state machine -/

theorem record_iter_nil (faults : Faults) (sid : String) (st : ServerState) :
    record_iter faults sid st [] = ([], st) := rfl

theorem record_iter_cons (faults : Faults) (sid : String) (st : ServerState)
    (evs : List KeyEvent) (rest : List (List KeyEvent)) :
    record_iter faults sid st (evs :: rest) =
      ((record_data_sample faults st sid evs).1 ::
        (record_iter faults sid (record_data_sample faults st sid evs).2 rest).1,
       (record_iter faults sid (record_data_sample faults st sid evs).2 rest).2) := rfl

theorem quotaOutcome_of_full {k : Nat} (h : MAX_SAMPLES ≤ k) :
    quotaOutcome k = .apiError 403 "session_complete"
      "This session is complete. No more samples can be recorded." := by
  unfold quotaOutcome
  rw [if_pos h]

/-- Invariant-carrying iteration lemma: starting from k success files
(all with in-range indices fresh above k), a run of target-phrase
submissions produces quotaOutcome (k), quotaOutcome (k+1), ..., caps the
success bucket at MAX_SAMPLES, and never touches the failure bucket or
the sessions directory. -/
theorem record_iter_target (sid : String) :
    ∀ (batches : List (List KeyEvent)) (st : ServerState),
      sid ∈ st.sessions →
      (∀ evs ∈ batches, typedStringOf evs = TARGET_STRING) →
      globCount st.dataFiles sid ≤ MAX_SAMPLES →
      (∀ n, globCount st.dataFiles sid < n → n ≤ MAX_SAMPLES →
        ∀ f ∈ st.dataFiles, f.1 ≠ sampleFileName sid n) →
      (record_iter noFaults sid st batches).1 =
        (List.range batches.length).map
          (fun i => quotaOutcome (globCount st.dataFiles sid + i)) ∧
      globCount (record_iter noFaults sid st batches).2.dataFiles sid =
        min (globCount st.dataFiles sid + batches.length) MAX_SAMPLES ∧
      (record_iter noFaults sid st batches).2.failedFiles = st.failedFiles ∧
      (record_iter noFaults sid st batches).2.sessions = st.sessions := by
  have h5 : MAX_SAMPLES = 5 := rfl
  intro batches
  induction batches with
  | nil =>
    intro st _ _ hk _
    refine ⟨rfl, ?_, rfl, rfl⟩
    rw [record_iter_nil]
    simp
    omega
  | cons evs rest ih =>
    intro st hmem hall hk hfresh
    have hevs : typedStringOf evs = TARGET_STRING := hall evs (by simp)
    have hrest : ∀ e ∈ rest, typedStringOf e = TARGET_STRING :=
      fun e he => hall e (by simp [he])
    by_cases hfull : MAX_SAMPLES ≤ globCount st.dataFiles sid
    · have hstep := record_quota_full hmem hevs hfull
      obtain ⟨ho, hc, hffl, hsess⟩ := ih st hmem hrest hk hfresh
      rw [record_iter_cons, hstep]
      simp only
      refine ⟨?_, by rw [hc]; simp only [List.length_cons]; omega, hffl, hsess⟩
      rw [ho, List.length_cons, List.range_succ_eq_map, List.map_cons, List.map_map]
      congr 1
      · rw [Nat.add_zero, quotaOutcome_of_full hfull]
      · apply List.map_congr_left
        intro i _
        simp only [Function.comp]
        rw [quotaOutcome_of_full (by omega), quotaOutcome_of_full (by omega)]
    · have hroom : globCount st.dataFiles sid < MAX_SAMPLES := by omega
      have hfr1 : ∀ f ∈ st.dataFiles,
          f.1 ≠ sampleFileName sid (globCount st.dataFiles sid + 1) :=
        fun f hf => hfresh _ (by omega) (by omega) f hf
      have hstep := record_success hmem hevs hroom hfr1
      set k := globCount st.dataFiles sid with hkdef
      set x : String × String :=
        (sampleFileName sid (k + 1), writeCsvContent (newRowsOf evs)) with hxdef
      set st2 : ServerState :=
        { st with dataFiles := st.dataFiles ++ [x] } with hst2
      have hc2 : globCount st2.dataFiles sid = k + 1 := by
        rw [hst2]
        show globCount (st.dataFiles ++ [x]) sid = k + 1
        rw [globCount_append, hxdef]
        simp [matchesGlob_sampleFileName]
      have hmem2 : sid ∈ st2.sessions := hmem
      have hk2 : globCount st2.dataFiles sid ≤ MAX_SAMPLES := by omega
      have hfresh2 : ∀ n, globCount st2.dataFiles sid < n → n ≤ MAX_SAMPLES →
          ∀ f ∈ st2.dataFiles, f.1 ≠ sampleFileName sid n := by
        intro n h1 h2 f hf
        rw [hc2] at h1
        have hf2 : f ∈ st.dataFiles ++ [x] := hf
        rw [List.mem_append] at hf2
        rcases hf2 with hf2 | hf2
        · exact hfresh n (by omega) h2 f hf2
        · have hfx : f = x := by simpa using hf2
          rw [hfx, hxdef]
          intro heq
          have := sampleFileName_inj_le (by omega) (by omega) heq
          omega
      obtain ⟨ho, hc, hffl, hsess⟩ := ih st2 hmem2 hrest hk2 hfresh2
      rw [record_iter_cons, hstep]
      simp only
      refine ⟨?_, ?_, ?_, ?_⟩
      · rw [ho, hc2, List.length_cons, List.range_succ_eq_map, List.map_cons,
          List.map_map]
        congr 1
        · simp only [Nat.add_zero]
          unfold quotaOutcome
          rw [if_neg hfull]
        · apply List.map_congr_left
          intro i _
          simp only [Function.comp]
          congr 1
          omega
      · rw [hc, hc2]
        simp only [List.length_cons]
        omega
      · exact hffl
      · exact hsess

/-! ### Outcome-only and frame lemmas (no freshness assumptions) -/

/-- On a matching typed string the outcome is 403, completion, or a
recorded count — never a validation error. -/
theorem record_success_outcome {st : ServerState} {sid : String} {evs : List KeyEvent}
    (hmem : sid ∈ st.sessions) (htyped : typedStringOf evs = TARGET_STRING) :
    (record_data_sample noFaults st sid evs).1 =
      (if MAX_SAMPLES ≤ globCount st.dataFiles sid then
        RecordOutcome.apiError 403 "session_complete"
          "This session is complete. No more samples can be recorded."
       else if globCount st.dataFiles sid + 1 = MAX_SAMPLES then
        RecordOutcome.sessionCompleted CONGRATULATIONS_MESSAGE
       else RecordOutcome.recorded (globCount st.dataFiles sid + 1)) := by
  unfold record_data_sample
  rw [noFaults_exists]
  rw [if_neg (by simp)]
  rw [if_neg (by simp [hmem])]
  rw [if_neg (by simp [htyped])]
  by_cases hfull : MAX_SAMPLES ≤ globCount st.dataFiles sid
  · rw [if_pos hfull, if_pos hfull]
  · rw [if_neg hfull, if_neg hfull]
    rw [noFaults_data]
    rw [if_neg (by simp)]
    by_cases h5 : globCount st.dataFiles sid + 1 = MAX_SAMPLES <;> simp [h5]

/-- On a mismatching typed string the outcome is always the 400 validation
error naming the next attempt number. -/
theorem record_validation_outcome {st : ServerState} {sid : String} {evs : List KeyEvent}
    (hmem : sid ∈ st.sessions) (htyped : typedStringOf evs ≠ TARGET_STRING) :
    (record_data_sample noFaults st sid evs).1 =
      RecordOutcome.apiError 400 "validation_failed"
        ("Typed string did not match target. Attempt " ++
          natToDec (globCount st.failedFiles sid + 1) ++ " logged.") := by
  unfold record_data_sample
  rw [noFaults_exists]
  rw [if_neg (by simp)]
  rw [if_neg (by simp [hmem])]
  rw [if_pos htyped]
  rw [noFaults_failed]
  rw [if_neg (by simp)]

/-- A successful attempt never touches the failure bucket or the sessions
directory. -/
theorem record_success_frame {st : ServerState} {sid : String} {evs : List KeyEvent}
    (hmem : sid ∈ st.sessions) (htyped : typedStringOf evs = TARGET_STRING) :
    (record_data_sample noFaults st sid evs).2.failedFiles = st.failedFiles ∧
    (record_data_sample noFaults st sid evs).2.sessions = st.sessions := by
  unfold record_data_sample
  rw [noFaults_exists]
  rw [if_neg (by simp)]
  rw [if_neg (by simp [hmem])]
  rw [if_neg (by simp [htyped])]
  by_cases hfull : MAX_SAMPLES ≤ globCount st.dataFiles sid
  · rw [if_pos hfull]
    exact ⟨rfl, rfl⟩
  · rw [if_neg hfull]
    rw [noFaults_data]
    rw [if_neg (by simp)]
    by_cases h5 : globCount st.dataFiles sid + 1 = MAX_SAMPLES <;> simp [h5]

theorem strStarts_sampleFileName (sid : String) (n : Nat) :
    strStarts (sid ++ "_") (sampleFileName sid n) = true := by
  rw [sampleFileName_assoc, strStarts_iff]
  exact ⟨(natToDec n ++ ".csv").data, String.data_append _ _⟩

/-! ### Session allocation lemmas -/

/-- The id returned by the generation loop is the first free candidate:
every earlier candidate collided with an existing marker name. -/
theorem generate_spec (sessions : List String) :
    ∀ (candidates : List String) (sid : String),
      generate_unique_session_id sessions candidates = some sid →
      sessionIdAvailable sessions sid = true ∧
      ∃ pre post, candidates = pre ++ sid :: post ∧
        ∀ c ∈ pre, sessionIdAvailable sessions c = false := by
  intro candidates
  induction candidates with
  | nil =>
    intro sid h
    simp [generate_unique_session_id] at h
  | cons c rest ih =>
    intro sid h
    unfold generate_unique_session_id at h
    by_cases hc : sessions.any (fun f => strStarts c f) = true
    · rw [if_pos hc] at h
      obtain ⟨hav, pre, post, heq, hpre⟩ := ih sid h
      refine ⟨hav, c :: pre, post, by rw [heq]; rfl, ?_⟩
      intro d hd
      rcases List.mem_cons.mp hd with hd | hd
      · rw [hd, sessionIdAvailable, hc]
        rfl
      · exact hpre d hd
    · rw [if_neg hc] at h
      injection h with h
      subst h
      refine ⟨?_, [], rest, rfl, by simp⟩
      rw [sessionIdAvailable, Bool.eq_false_iff.mpr hc]
      rfl

/-- Any candidate built from SESSION_ID_LENGTH random picks is a
fixed-length string over the alphabet {a-z, 0-9}. -/
theorem mkCandidate_valid (picks : List Nat) (h : picks.length = SESSION_ID_LENGTH) :
    isValidSessionId (mkCandidate picks) := by
  constructor
  · show (picks.map _).length = SESSION_ID_LENGTH
    rw [List.length_map, h]
  · intro c hc
    have hc2 : c ∈ picks.map
        (fun i => SESSION_ID_CHARS.getD (i % SESSION_ID_CHARS.length) 'a') := hc
    rw [List.mem_map] at hc2
    obtain ⟨i, _, hi⟩ := hc2
    rw [← hi]
    have hlt : i % SESSION_ID_CHARS.length < SESSION_ID_CHARS.length :=
      Nat.mod_lt i (by decide)
    rw [List.getD_eq_getElem SESSION_ID_CHARS 'a' hlt]
    exact List.getElem_mem hlt

/-! ### Claim theorems -/

/-- C3: for every session id whose marker file does not exist in the
sessions directory, record_data_sample fails with 404 session_not_found
regardless of the submitted key events, and writes no file to any bucket
(the server state is returned unchanged). -/
theorem claim_C3 (st : ServerState) (sid : String) (evs : List KeyEvent)
    (hmem : sid ∉ st.sessions) :
    record_data_sample noFaults st sid evs =
      (.apiError 404 "session_not_found" "Session ID not found.", st) :=
  record_not_found noFaults_exists hmem evs

/-- Witness for C3 at the never-allocated session id "zzzzzz". -/
theorem claim_C3_witness :
    record_data_sample noFaults (ServerState.mk ["abc123"] [] []) "zzzzzz"
        [KeyEvent.mk "a" 1 2] =
      (.apiError 404 "session_not_found" "Session ID not found.",
       ServerState.mk ["abc123"] [] []) :=
  claim_C3 (ServerState.mk ["abc123"] [] []) "zzzzzz" [KeyEvent.mk "a" 1 2]
    (by decide)

/-- C8: every attempt CSV consists of the exact header line followed by one
raw row per KeyEvent — key, keyDownTimestamp, keyUpTimestamp joined by
commas, with the key taken verbatim (no quoting or escaping). -/
theorem claim_C8 (evs : List KeyEvent) (_hne : evs ≠ []) :
    writeCsvContent (newRowsOf evs) =
      "key,keyDownTimestamp,keyUpTimestamp\n" ++
        concatAll (evs.map (fun e =>
          e.key ++ "," ++ intToDec e.keyDownTimestamp ++ "," ++
            intToDec e.keyUpTimestamp ++ "\n")) := by
  unfold writeCsvContent newRowsOf CSV_HEADER
  congr 1
  rw [List.map_map]
  apply congrArg
  apply List.map_congr_left
  intro e _
  simp only [Function.comp]
  simp [csvRowOf, joinSep, String.append_assoc]

/-- Witness for C8: a key containing a comma and a newline is written
verbatim. -/
theorem claim_C8_witness :
    writeCsvContent (newRowsOf [KeyEvent.mk "a,\nb" 3 4]) =
      "key,keyDownTimestamp,keyUpTimestamp\n" ++
        concatAll ([KeyEvent.mk "a,\nb" 3 4].map (fun e =>
          e.key ++ "," ++ intToDec e.keyDownTimestamp ++ "," ++
            intToDec e.keyUpTimestamp ++ "\n")) :=
  claim_C8 [KeyEvent.mk "a,\nb" 3 4] (by decide)

/-- C9: the key-to-text mapping lowercases the key before lookup — any
capitalisation of "enter" is dropped and any capitalisation of "space"
becomes a single space — while all other keys contribute their original,
un-lowercased text. -/
theorem claim_C9 (k : String) :
    (strLower k = "enter" → keyToText k = "") ∧
    (strLower k = "space" → keyToText k = " ") ∧
    (strLower k ≠ "enter" → strLower k ≠ "space" → keyToText k = k) := by
  refine ⟨?_, ?_, ?_⟩
  · intro h
    unfold keyToText
    rw [h]
    simp
  · intro h
    unfold keyToText
    rw [h]
    simp
  · intro h1 h2
    unfold keyToText
    rw [if_neg h2, if_neg h1]

/-- Witness for C9 on "ENTER", "Enter", "SPACE", and a verbatim mixed-case
key. -/
theorem claim_C9_witness :
    keyToText "ENTER" = "" ∧ keyToText "Enter" = "" ∧
    keyToText "SPACE" = " " ∧ keyToText "Ab" = "Ab" :=
  ⟨(claim_C9 "ENTER").1 (by decide), (claim_C9 "Enter").1 (by decide),
   (claim_C9 "SPACE").2.1 (by decide),
   (claim_C9 "Ab").2.2 (by decide) (by decide)⟩

/-- C2: the typed string used for content validation maps each event's key
through the case-insensitive space/enter table (other keys verbatim),
concatenates in order, and strips edge whitespace; the validation outcome
depends only on the sequence of key values, never on timestamps, and is a
byte-for-byte comparison against the fixed target phrase. -/
theorem claim_C2 (evs : List KeyEvent) (_hne : evs ≠ []) :
    typedStringOf evs = specTypedOfKeys (evs.map (fun e => e.key)) ∧
    (∀ evs2 : List KeyEvent,
      evs2.map (fun e => e.key) = evs.map (fun e => e.key) →
      typedStringOf evs2 = typedStringOf evs) ∧
    (∀ (st : ServerState) (sid : String), sid ∈ st.sessions →
      ((∃ d, (record_data_sample noFaults st sid evs).1 =
          .apiError 400 "validation_failed" d) ↔
        typedStringOf evs ≠ TARGET_STRING)) := by
  have hmap : ∀ l : List KeyEvent,
      l.map (fun e => keyToText e.key) =
        (l.map (fun e => e.key)).map specCharOf := by
    intro l
    rw [List.map_map]
    rfl
  refine ⟨?_, ?_, ?_⟩
  · unfold typedStringOf specTypedOfKeys
    rw [hmap]
  · intro evs2 hkeys
    unfold typedStringOf
    rw [hmap, hmap, hkeys]
  · intro st sid hmem
    constructor
    · rintro ⟨d, hd⟩ h
      rw [record_success_outcome hmem h] at hd
      by_cases hfull : MAX_SAMPLES ≤ globCount st.dataFiles sid
      · rw [if_pos hfull] at hd
        simp at hd
      · rw [if_neg hfull] at hd
        by_cases h5 : globCount st.dataFiles sid + 1 = MAX_SAMPLES
        · rw [if_pos h5] at hd
          simp at hd
        · rw [if_neg h5] at hd
          simp at hd
    · intro h
      exact ⟨_, record_validation_outcome hmem h⟩

/-- Witness for C2: events spelling the target via "space" keys and an
"enter", with arbitrary timestamps. -/
theorem claim_C2_witness :
    typedStringOf [KeyEvent.mk TARGET_STRING 9 3, KeyEvent.mk "Enter" 1 2] =
      specTypedOfKeys ([KeyEvent.mk TARGET_STRING 9 3,
        KeyEvent.mk "Enter" 1 2].map (fun e => e.key)) ∧
    typedStringOf [KeyEvent.mk TARGET_STRING 5 6, KeyEvent.mk "Enter" 7 8] =
      typedStringOf [KeyEvent.mk TARGET_STRING 9 3, KeyEvent.mk "Enter" 1 2] := by
  have h := claim_C2 [KeyEvent.mk TARGET_STRING 9 3, KeyEvent.mk "Enter" 1 2]
    (by decide)
  refine ⟨h.1, ?_⟩
  have h2 := h.2.1 [KeyEvent.mk TARGET_STRING 5 6, KeyEvent.mk "Enter" 7 8]
  simp only [List.map_cons, List.map_nil] at h2
  apply h2
  decide

/-- C4: on an existing session, a failed validation creates exactly one new
failure-bucket file named with the next 1-based attempt index, mentions
that index in the 400 detail, and leaves the success bucket untouched; a
successful attempt leaves the failure bucket untouched. -/
theorem claim_C4 (st : ServerState) (sid : String) (evs : List KeyEvent)
    (hmem : sid ∈ st.sessions)
    (hfresh : ∀ f ∈ st.failedFiles,
      f.1 ≠ sampleFileName sid (globCount st.failedFiles sid + 1)) :
    (typedStringOf evs ≠ TARGET_STRING →
      record_data_sample noFaults st sid evs =
        (.apiError 400 "validation_failed"
          ("Typed string did not match target. Attempt " ++
            natToDec (globCount st.failedFiles sid + 1) ++ " logged."),
         { st with failedFiles := st.failedFiles ++
             [(sampleFileName sid (globCount st.failedFiles sid + 1),
               writeCsvContent (newRowsOf evs))] }) ∧
      globCount (record_data_sample noFaults st sid evs).2.failedFiles sid =
        globCount st.failedFiles sid + 1 ∧
      (record_data_sample noFaults st sid evs).2.dataFiles = st.dataFiles) ∧
    (typedStringOf evs = TARGET_STRING →
      (record_data_sample noFaults st sid evs).2.failedFiles = st.failedFiles) := by
  constructor
  · intro ht
    have h := record_validation_fail hmem ht hfresh
    refine ⟨h, ?_, ?_⟩
    · rw [h]
      show globCount (st.failedFiles ++ [_]) sid = _
      rw [globCount_append]
      simp [matchesGlob_sampleFileName]
    · rw [h]
  · intro ht
    exact (record_success_frame hmem ht).1

/-- Witness for C4 at a concrete mismatching submission (attempt 1) and a
concrete matching one. -/
theorem claim_C4_witness :
    (typedStringOf [KeyEvent.mk "x" 1 2] ≠ TARGET_STRING →
      record_data_sample noFaults (ServerState.mk ["abc123"] [] []) "abc123"
          [KeyEvent.mk "x" 1 2] =
        (.apiError 400 "validation_failed"
          ("Typed string did not match target. Attempt " ++
            natToDec (globCount ([] : List (String × String)) "abc123" + 1) ++
            " logged."),
         { ServerState.mk ["abc123"] [] [] with failedFiles := [] ++
             [(sampleFileName "abc123"
                 (globCount ([] : List (String × String)) "abc123" + 1),
               writeCsvContent (newRowsOf [KeyEvent.mk "x" 1 2]))] }) ∧
      globCount (record_data_sample noFaults (ServerState.mk ["abc123"] [] [])
          "abc123" [KeyEvent.mk "x" 1 2]).2.failedFiles "abc123" =
        globCount ([] : List (String × String)) "abc123" + 1 ∧
      (record_data_sample noFaults (ServerState.mk ["abc123"] [] [])
          "abc123" [KeyEvent.mk "x" 1 2]).2.dataFiles = []) ∧
    (typedStringOf [KeyEvent.mk "x" 1 2] = TARGET_STRING →
      (record_data_sample noFaults (ServerState.mk ["abc123"] [] [])
          "abc123" [KeyEvent.mk "x" 1 2]).2.failedFiles = []) :=
  claim_C4 (ServerState.mk ["abc123"] [] []) "abc123" [KeyEvent.mk "x" 1 2]
    (by decide) (by simp)

/-- C6: the three validation steps run in the fixed order session
existence, content, quota, each short-circuiting with no side effect from
a later step; in particular a wrong-content submission to a session already
holding MAX_SAMPLES success files yields validation_failed (and a new
failure file), not session_complete. -/
theorem claim_C6 (st : ServerState) (sid : String) (evs : List KeyEvent) :
    (∀ faults : Faults, faults.existsCheckFails = true →
      record_data_sample faults st sid evs =
        (.apiError 500 "session_check_failed"
          "Error checking session existence.", st)) ∧
    (sid ∉ st.sessions →
      record_data_sample noFaults st sid evs =
        (.apiError 404 "session_not_found" "Session ID not found.", st)) ∧
    (sid ∈ st.sessions → typedStringOf evs ≠ TARGET_STRING →
      MAX_SAMPLES ≤ globCount st.dataFiles sid →
      (∀ f ∈ st.failedFiles,
        f.1 ≠ sampleFileName sid (globCount st.failedFiles sid + 1)) →
      record_data_sample noFaults st sid evs =
        (.apiError 400 "validation_failed"
          ("Typed string did not match target. Attempt " ++
            natToDec (globCount st.failedFiles sid + 1) ++ " logged."),
         { st with failedFiles := st.failedFiles ++
             [(sampleFileName sid (globCount st.failedFiles sid + 1),
               writeCsvContent (newRowsOf evs))] })) :=
  ⟨fun _ hf => record_check_fault hf st sid evs,
   fun hmem => record_not_found noFaults_exists hmem evs,
   fun hmem ht _ hfresh => record_validation_fail hmem ht hfresh⟩

/-- Witness for C6: a full session (5 success files) still answers a wrong
submission with validation_failed, and a missing marker yields 404. -/
theorem claim_C6_witness :
    ("abc123" ∉ (ServerState.mk ["zzzzzz"]
        [(sampleFileName "abc123" 1, "c"), (sampleFileName "abc123" 2, "c"),
         (sampleFileName "abc123" 3, "c"), (sampleFileName "abc123" 4, "c"),
         (sampleFileName "abc123" 5, "c")] []).sessions →
      record_data_sample noFaults (ServerState.mk ["zzzzzz"]
        [(sampleFileName "abc123" 1, "c"), (sampleFileName "abc123" 2, "c"),
         (sampleFileName "abc123" 3, "c"), (sampleFileName "abc123" 4, "c"),
         (sampleFileName "abc123" 5, "c")] []) "abc123" [KeyEvent.mk "x" 1 2] =
        (.apiError 404 "session_not_found" "Session ID not found.",
         ServerState.mk ["zzzzzz"]
        [(sampleFileName "abc123" 1, "c"), (sampleFileName "abc123" 2, "c"),
         (sampleFileName "abc123" 3, "c"), (sampleFileName "abc123" 4, "c"),
         (sampleFileName "abc123" 5, "c")] [])) ∧
    ("abc123" ∈ (ServerState.mk ["abc123"]
        [(sampleFileName "abc123" 1, "c"), (sampleFileName "abc123" 2, "c"),
         (sampleFileName "abc123" 3, "c"), (sampleFileName "abc123" 4, "c"),
         (sampleFileName "abc123" 5, "c")] []).sessions ∧
      record_data_sample noFaults (ServerState.mk ["abc123"]
        [(sampleFileName "abc123" 1, "c"), (sampleFileName "abc123" 2, "c"),
         (sampleFileName "abc123" 3, "c"), (sampleFileName "abc123" 4, "c"),
         (sampleFileName "abc123" 5, "c")] []) "abc123" [KeyEvent.mk "x" 1 2] =
        (.apiError 400 "validation_failed"
          ("Typed string did not match target. Attempt " ++ natToDec 1 ++
            " logged."),
         { ServerState.mk ["abc123"]
            [(sampleFileName "abc123" 1, "c"), (sampleFileName "abc123" 2, "c"),
             (sampleFileName "abc123" 3, "c"), (sampleFileName "abc123" 4, "c"),
             (sampleFileName "abc123" 5, "c")] [] with failedFiles := [] ++
             [(sampleFileName "abc123" 1,
               writeCsvContent (newRowsOf [KeyEvent.mk "x" 1 2]))] })) := by
  constructor
  · exact (claim_C6 _ "abc123" [KeyEvent.mk "x" 1 2]).2.1
  · refine ⟨by decide, ?_⟩
    exact (claim_C6 _ "abc123" [KeyEvent.mk "x" 1 2]).2.2 (by decide) (by decide)
      (by decide) (by simp)

/-- C1: for every session whose marker exists with an empty success bucket,
and every run of submissions that reconstruct the target phrase, the
Nth call with N < 5 returns Recorded{N}, the 5th returns the
congratulatory completion, every later call fails 403 session_complete
without writing, and exactly min(len, MAX_SAMPLES) files end up in the
success bucket, the failure bucket untouched. -/
theorem claim_C1 (st : ServerState) (sid : String)
    (batches : List (List KeyEvent))
    (hmem : sid ∈ st.sessions)
    (hcount : globCount st.dataFiles sid = 0)
    (hall : ∀ evs ∈ batches, typedStringOf evs = TARGET_STRING) :
    (record_iter noFaults sid st batches).1 =
      (List.range batches.length).map (fun i => quotaOutcome i) ∧
    globCount (record_iter noFaults sid st batches).2.dataFiles sid =
      min batches.length MAX_SAMPLES ∧
    (record_iter noFaults sid st batches).2.failedFiles = st.failedFiles ∧
    (record_iter noFaults sid st batches).2.sessions = st.sessions := by
  have h := record_iter_target sid batches st hmem hall
    (by rw [hcount]; exact Nat.zero_le _)
    (fun n _ _ f hf => fresh_of_globCount_zero hcount n f hf)
  rw [hcount] at h
  simpa using h

/-- Witness for C1: six target submissions against a fresh session yield
Recorded 1..4, the completion message, then the 403, with exactly five
success files. -/
theorem claim_C1_witness :
    (record_iter noFaults "abc123" (ServerState.mk ["abc123"] [] [])
        (List.replicate 6 [KeyEvent.mk TARGET_STRING 1 2])).1 =
      (List.range (List.replicate 6 [KeyEvent.mk TARGET_STRING 1 2]).length).map
        (fun i => quotaOutcome i) ∧
    globCount (record_iter noFaults "abc123" (ServerState.mk ["abc123"] [] [])
        (List.replicate 6 [KeyEvent.mk TARGET_STRING 1 2])).2.dataFiles "abc123" =
      min (List.replicate 6 [KeyEvent.mk TARGET_STRING 1 2]).length MAX_SAMPLES ∧
    (record_iter noFaults "abc123" (ServerState.mk ["abc123"] [] [])
        (List.replicate 6 [KeyEvent.mk TARGET_STRING 1 2])).2.failedFiles =
      (ServerState.mk ["abc123"] [] []).failedFiles ∧
    (record_iter noFaults "abc123" (ServerState.mk ["abc123"] [] [])
        (List.replicate 6 [KeyEvent.mk TARGET_STRING 1 2])).2.sessions =
      (ServerState.mk ["abc123"] [] []).sessions :=
  claim_C1 (ServerState.mk ["abc123"] [] []) "abc123"
    (List.replicate 6 [KeyEvent.mk TARGET_STRING 1 2]) (by decide) (by rfl)
    (fun evs hevs => by rw [List.eq_of_mem_replicate hevs]; decide)

/-- C5 (code evaluated at the failing inputs): the server faults produced by
a failed session-existence check and by a failed failure-log write carry
error codes "session_check_failed" and "failed_attempt_log_failed" — not
the "internal_error" and "log_write_failed" the claim (and the repo's own
test suite) expect. -/
theorem claim_C5 :
    (record_data_sample { noFaults with existsCheckFails := true }
        (ServerState.mk ["abc123"] [] []) "abc123" [KeyEvent.mk "a" 1 2]).1 =
      .apiError 500 "session_check_failed" "Error checking session existence." ∧
    "session_check_failed" ≠ "internal_error" ∧
    (record_data_sample { noFaults with failedWriteFails := true }
        (ServerState.mk ["abc123"] [] []) "abc123" [KeyEvent.mk "x" 1 2]).1 =
      .apiError 500 "failed_attempt_log_failed"
        "Validation failed, and could not log the attempt." ∧
    "failed_attempt_log_failed" ≠ "log_write_failed" := by
  refine ⟨rfl, by decide, ?_, by decide⟩
  rfl

/-- C10: sessions are isolated — a record call for a fixed-length session id
S creates files only with name prefix "S_" and never changes the
success- or failure-bucket counts observed for any other fixed-length id
T. -/
theorem claim_C10 (st : ServerState) (S T : String) (evs : List KeyEvent)
    (faults : Faults)
    (hS : S.length = SESSION_ID_LENGTH) (hT : T.length = SESSION_ID_LENGTH)
    (hne : S ≠ T) :
    globCount (record_data_sample faults st S evs).2.dataFiles T =
      globCount st.dataFiles T ∧
    globCount (record_data_sample faults st S evs).2.failedFiles T =
      globCount st.failedFiles T ∧
    (record_data_sample faults st S evs).2.sessions = st.sessions ∧
    (∀ f ∈ (record_data_sample faults st S evs).2.dataFiles,
      f ∈ st.dataFiles ∨ strStarts (S ++ "_") f.1 = true) ∧
    (∀ f ∈ (record_data_sample faults st S evs).2.failedFiles,
      f ∈ st.failedFiles ∨ strStarts (S ++ "_") f.1 = true) := by
  have hTS : T ≠ S := fun h => hne h.symm
  have hlen : S.length = T.length := by rw [hS, hT]
  have hnm : ∀ n, matchesGlob T (sampleFileName S n) = false :=
    fun n => matchesGlob_ne_sampleFileName hlen hTS n
  unfold record_data_sample
  dsimp only
  split_ifs <;>
    first
      | exact ⟨rfl, rfl, rfl, fun f hf => Or.inl hf, fun f hf => Or.inl hf⟩
      | exact ⟨rfl, globCount_writeFile_not_match (hnm _) _, rfl,
          fun f hf => Or.inl hf,
          fun f hf => (writeFile_mem f hf).elim Or.inl
            (fun he => Or.inr (by rw [he]; exact strStarts_sampleFileName S _))⟩
      | exact ⟨globCount_writeFile_not_match (hnm _) _, rfl, rfl,
          fun f hf => (writeFile_mem f hf).elim Or.inl
            (fun he => Or.inr (by rw [he]; exact strStarts_sampleFileName S _)),
          fun f hf => Or.inl hf⟩

/-- Witness for C10: a successful submission for "abc123" leaves the
buckets of "zzzzzz" untouched. -/
theorem claim_C10_witness :
    globCount (record_data_sample noFaults
        (ServerState.mk ["abc123", "zzzzzz"] [(sampleFileName "zzzzzz" 1, "c")] [])
        "abc123" [KeyEvent.mk TARGET_STRING 1 2]).2.dataFiles "zzzzzz" =
      globCount [(sampleFileName "zzzzzz" 1, "c")] "zzzzzz" ∧
    globCount (record_data_sample noFaults
        (ServerState.mk ["abc123", "zzzzzz"] [(sampleFileName "zzzzzz" 1, "c")] [])
        "abc123" [KeyEvent.mk TARGET_STRING 1 2]).2.failedFiles "zzzzzz" =
      globCount ([] : List (String × String)) "zzzzzz" ∧
    (record_data_sample noFaults
        (ServerState.mk ["abc123", "zzzzzz"] [(sampleFileName "zzzzzz" 1, "c")] [])
        "abc123" [KeyEvent.mk TARGET_STRING 1 2]).2.sessions =
      ["abc123", "zzzzzz"] ∧
    (∀ f ∈ (record_data_sample noFaults
        (ServerState.mk ["abc123", "zzzzzz"] [(sampleFileName "zzzzzz" 1, "c")] [])
        "abc123" [KeyEvent.mk TARGET_STRING 1 2]).2.dataFiles,
      f ∈ [(sampleFileName "zzzzzz" 1, "c")] ∨
        strStarts ("abc123" ++ "_") f.1 = true) ∧
    (∀ f ∈ (record_data_sample noFaults
        (ServerState.mk ["abc123", "zzzzzz"] [(sampleFileName "zzzzzz" 1, "c")] [])
        "abc123" [KeyEvent.mk TARGET_STRING 1 2]).2.failedFiles,
      f ∈ ([] : List (String × String)) ∨
        strStarts ("abc123" ++ "_") f.1 = true) :=
  claim_C10 (ServerState.mk ["abc123", "zzzzzz"]
      [(sampleFileName "zzzzzz" 1, "c")] []) "abc123" "zzzzzz"
    [KeyEvent.mk TARGET_STRING 1 2] noFaults (by decide) (by decide) (by decide)

/-- C7: session allocation draws fixed-length candidates over {a-z, 0-9},
retries until no existing marker name starts with the candidate, then
writes the empty marker; if the marker write fails the caller gets the
session_creation_failed server fault and no session id. -/
theorem claim_C7 (pickss : List (List Nat))
    (hlen : ∀ p ∈ pickss, p.length = SESSION_ID_LENGTH)
    (markerWriteFails : Bool) (st : ServerState)
    (res : SessionOutcome) (st2 : ServerState)
    (h : get_session_id markerWriteFails (pickss.map mkCandidate) st =
      some (res, st2)) :
    (markerWriteFails = false →
      ∃ sid, res = .ok sid ∧ isValidSessionId sid ∧
        sessionIdAvailable st.sessions sid = true ∧
        (∃ pre post, pickss.map mkCandidate = pre ++ sid :: post ∧
          ∀ c ∈ pre, sessionIdAvailable st.sessions c = false) ∧
        st2 = { st with sessions := st.sessions ++ [sid] }) ∧
    (markerWriteFails = true →
      res = .apiError 500 "session_creation_failed"
        "Could not create session file." ∧ st2 = st) := by
  unfold get_session_id at h
  cases hgen : generate_unique_session_id st.sessions (pickss.map mkCandidate) with
  | none =>
    rw [hgen] at h
    simp at h
  | some sid =>
    rw [hgen] at h
    obtain ⟨hav, pre, post, heq, hpre⟩ := generate_spec st.sessions _ sid hgen
    have hvalid : isValidSessionId sid := by
      have hmemc : sid ∈ pickss.map mkCandidate := by
        rw [heq]
        simp
      rw [List.mem_map] at hmemc
      obtain ⟨p, hp, hps⟩ := hmemc
      rw [← hps]
      exact mkCandidate_valid p (hlen p hp)
    constructor
    · intro hm
      rw [hm] at h
      simp only [Bool.false_eq_true, if_false, Option.some.injEq] at h
      injection h with h1 h2
      exact ⟨sid, h1.symm, hvalid, hav, ⟨pre, post, heq, hpre⟩, h2.symm⟩
    · intro hm
      rw [hm] at h
      simp only [if_true, Option.some.injEq] at h
      injection h with h1 h2
      exact ⟨h1.symm, h2.symm⟩

/-- Witness for C7: one six-pick candidate stream allocates "abcdef" into an
empty sessions directory. -/
theorem claim_C7_witness :
    ((false : Bool) = false →
      ∃ sid, SessionOutcome.ok "abcdef" = SessionOutcome.ok sid ∧
        isValidSessionId sid ∧
        sessionIdAvailable (ServerState.mk [] [] []).sessions sid = true ∧
        (∃ pre post,
          [[0, 1, 2, 3, 4, 5]].map mkCandidate = pre ++ sid :: post ∧
          ∀ c ∈ pre, sessionIdAvailable (ServerState.mk [] [] []).sessions c = false) ∧
        ServerState.mk ["abcdef"] [] [] =
          { ServerState.mk [] [] [] with
              sessions := (ServerState.mk [] [] []).sessions ++ [sid] }) ∧
    ((false : Bool) = true →
      SessionOutcome.ok "abcdef" =
        SessionOutcome.apiError 500 "session_creation_failed"
          "Could not create session file." ∧
      ServerState.mk ["abcdef"] [] [] = ServerState.mk [] [] []) :=
  claim_C7 [[0, 1, 2, 3, 4, 5]] (by decide) false (ServerState.mk [] [] [])
    (SessionOutcome.ok "abcdef") (ServerState.mk ["abcdef"] [] []) (by decide)

end KeyEventRecorder
